import Mathlib

/-
Verification development for the error-refinement subsystem of a
constraint-based type-checking engine
(compiler/rustc_trait_selection/src/solve/fulfill/derive_errors.rs).

The Rust source is shallowly embedded: predicate, candidate, goal-source and
error-code families become closed sum types; the recorded solver trace becomes
an inductive tree; the mutable proof-tree visitor becomes explicit
state-passing; external collaborators (the solver, the declaration database,
the inference context) become oracle fields of `Tcx` / `InferCtxt` or recorded
trace data, following the external-interface boundary of the specification.
-/

/-- Definition identifiers (`DefId`). -/
abbrev DefId := Nat
/-- Source locations (`Span`). -/
abbrev Span := Nat
/-- Body identifiers (`HirId` of the enclosing body). -/
abbrev BodyId := Nat
/-- Typing environments (`ParamEnv`), kept abstract. -/
abbrev ParamEnv := Nat
/-- Generic argument lists (`GenericArgsRef`), kept abstract. -/
abbrev Args := Nat
/-- Trait references appearing in const-conditions, kept abstract. -/
abbrev TraitRefData := Nat

/-- Types (`Ty`). Only the structure needed by this subsystem is modelled:
bound variables under a binder, the placeholders they are instantiated with
by `enter_forall_and_leak_universe`, and everything else as opaque atoms. -/
inductive Ty where
  | bvar (i : Nat)
  | placeholder (i : Nat)
  | base (n : Nat)
deriving DecidableEq

/-- A binder (`ty::Binder`): `bound` counts the bound variables,
`val` is the bound value. `skip_binder` is the `val` projection. -/
structure Binder (α : Type) where
  bound : Nat
  val : α
deriving DecidableEq

/-- `Binder::no_bound_vars`: the contents, provided the binder is empty. -/
def Binder.no_bound_vars (b : Binder α) : Option α :=
  if b.bound = 0 then some b.val else none

/-- Instantiate the bound variables of an enclosing binder with placeholders
(the effect of `InferCtxt::enter_forall_and_leak_universe` on a type). -/
def inst_ty (bound : Nat) : Ty → Ty
  | .bvar i => if i < bound then .placeholder i else .bvar i
  | .placeholder i => .placeholder i
  | .base n => .base n

/-- `InferCtxt::enter_forall_and_leak_universe` on a binder of a pair of
types: replaces the binder's bound variables by placeholders. -/
def enter_forall_and_leak_universe (b : Binder (Ty × Ty)) : Ty × Ty :=
  (inst_ty b.bound b.val.1, inst_ty b.bound b.val.2)

/-- `ty::BoundConstness` of a host-effect predicate. -/
inductive Constness where
  | const
  | maybe
deriving DecidableEq

/-- `ty::ConstKind`, restricted to the shapes this subsystem distinguishes. -/
inductive ConstKind where
  | unevaluated (uv_def : DefId) (uv_args : Args)
  | param (idx : Nat)
  | value (ty : Ty)
  | other_const
deriving DecidableEq

/-- A constant (`ty::Const`); `kind` is the `Const::kind()` projection. -/
structure Const where
  kind : ConstKind
deriving DecidableEq

/-- `ty::AliasTermKind`, restricted to what the child-mode classification
inspects. -/
inductive AliasTermKind where
  | projection_ty
  | projection_const
  | other_alias
deriving DecidableEq

/-- An alias term (`ty::AliasTerm`): its kind and the `DefId` of the trait of
its `trait_ref`. -/
structure AliasTerm where
  kind : AliasTermKind
  trait_def_id : DefId
deriving DecidableEq

/-- A `NormalizesTo` predicate's payload: the alias being normalized. -/
structure NormalizesToData where
  alias_term : AliasTerm
deriving DecidableEq

/-- `ty::TraitPredicate`: the trait's `DefId` (standing for its `trait_ref`)
and its polarity (`true` = positive). -/
structure TraitPredicate where
  def_id : DefId
  polarity : Bool
deriving DecidableEq

/-- `ty::HostEffectPredicate`: the trait's `DefId` and the required
constness. -/
structure HostEffectPredicate where
  def_id : DefId
  constness : Constness
deriving DecidableEq

/-- `ty::ClauseKind`, as distinguished by this subsystem. -/
inductive ClauseKind where
  | trait (p : TraitPredicate)
  | host_effect (p : HostEffectPredicate)
  | projection
  | const_arg_has_type (ct : Const) (expected_ty : Ty)
  | well_formed (arg : Ty)
  | other_clause
deriving DecidableEq

/-- `ty::PredicateKind`, as distinguished by this subsystem. -/
inductive PredKind where
  | clause (c : ClauseKind)
  | normalizes_to (n : NormalizesToData)
  | alias_relate (lhs rhs : Ty) (dir : Nat)
  | subtype (a b : Ty)
  | coerce (a b : Ty)
  | dyn_compatible
  | ambiguous
  | const_equate
deriving DecidableEq

/-- A predicate: a binder over a `PredKind` (`Predicate::kind()` yields the
binder; `skip_binder` its value). -/
abbrev Predicate := Binder PredKind

/-- `GoalSource`: how a nested goal arose from its parent candidate. -/
inductive GoalSource where
  | misc
  | impl_where_bound
  | alias_bound_const_condition
  | instantiate_higher_ranked
  | alias_well_formed
deriving DecidableEq

/-- `MaybeCause`: why a goal is not yet decided. -/
inductive MaybeCause where
  | ambiguity
  | overflow (suggest_increasing_limit : Bool)
deriving DecidableEq

/-- `Certainty`: the outcome of a successful evaluation. -/
inductive Certainty where
  | yes
  | maybe (cause : MaybeCause)
deriving DecidableEq

/-- `Result<Certainty, NoSolution>`: a goal's recorded evaluation result. -/
inductive GoalResult where
  | ok (c : Certainty)
  | err
deriving DecidableEq

/-- `Result::is_ok`. -/
def GoalResult.is_ok : GoalResult → Bool
  | .ok _ => true
  | .err => false

/-- `ObligationCauseCode`, restricted to the variants this subsystem builds.
The `DerivedCause` / `ImplDerivedCause` payloads are flattened into
constructor arguments. -/
inductive CauseCode where
  | misc
  | impl_derived (parent_trait_pred : Binder TraitPredicate) (parent_code : CauseCode)
      (impl_or_alias_def_id : DefId) (impl_def_predicate_index : Option Nat) (span : Span)
  | builtin_derived (parent_trait_pred : Binder TraitPredicate) (parent_code : CauseCode)
  | impl_derived_host (parent_host_pred : Binder HostEffectPredicate) (parent_code : CauseCode)
      (impl_def_id : DefId) (span : Span)
  | builtin_derived_host (parent_host_pred : Binder HostEffectPredicate) (parent_code : CauseCode)
deriving DecidableEq

/-- `ObligationCause`: a source location, the enclosing body, and the
attribution code. -/
structure ObligationCause where
  span : Span
  body_id : BodyId
  code : CauseCode
deriving DecidableEq

/-- Modelled from the spec: `ObligationCause::derived_cause` lives outside
this excerpt (it is part of the obligation infrastructure the spec treats as
given). Per spec section 4.4 it wraps the current cause's code in the derived
link built by `variant` from the parent trait predicate and the previous
code, keeping the span and body unchanged. -/
def derived_cause (cause : ObligationCause) (parent_trait_pred : Binder TraitPredicate)
    (variant : Binder TraitPredicate → CauseCode → CauseCode) : ObligationCause :=
  { cause with code := variant parent_trait_pred cause.code }

/-- Modelled from the spec: `ObligationCause::derived_host_cause` lives
outside this excerpt. Per spec section 4.5 it wraps the current cause's code
in the derived link built by `variant` from the parent host predicate and the
previous code, keeping the span and body unchanged. -/
def derived_host_cause (cause : ObligationCause)
    (parent_host_pred : Binder HostEffectPredicate)
    (variant : Binder HostEffectPredicate → CauseCode → CauseCode) : ObligationCause :=
  { cause with code := variant parent_host_pred cause.code }

/-- `PredicateObligation`: a goal together with its cause and recursion
depth. -/
structure Obligation where
  cause : ObligationCause
  param_env : ParamEnv
  predicate : Predicate
  recursion_depth : Nat
deriving DecidableEq

/-- `CandidateSource`: where a candidate came from. -/
inductive CandidateSource where
  | impl (impl_def_id : DefId)
  | builtin_impl
  | param_env_source (n : Nat)
  | alias_bound
  | other_source
deriving DecidableEq

/-- `inspect::ProbeKind`, restricted to the variants this subsystem
distinguishes. -/
inductive ProbeKind where
  | trait_candidate (source : CandidateSource) (result : GoalResult)
  | rigid_alias
  | other_probe
deriving DecidableEq

/-- A goal: a predicate under a typing environment. -/
structure GoalData where
  param_env : ParamEnv
  predicate : Predicate
deriving DecidableEq

mutual
/-- A node of the recorded solver trace (`inspect::InspectGoal`): the goal,
its recorded result, and the candidates tried for it. The two probe fields
record the traces the solver produces for the speculative
`WellFormed(lhs)` / `WellFormed(rhs)` re-solves performed for an
`AliasRelate` goal via `visit_proof_tree_at_depth` (`none` when the solver
produced no inspectable tree for the probe, in which case it is skipped). -/
inductive TraceNode : Type where
  | mk (goal : GoalData) (result : GoalResult) (candidates : List Candidate)
      (wf_lhs_probe : Option TraceNode) (wf_rhs_probe : Option TraceNode)
/-- A recorded candidate (`inspect::InspectCandidate`): its probe kind, its
result, its instantiated nested goals each tagged with their `GoalSource`
(`instantiate_nested_goals`), and — for a `WellFormed` parent goal — the
obligations produced by the external `wf::unnormalized_obligations`
generator, each paired with the trace obtained by
`instantiate_proof_tree_for_nested_goal` (spec section 4.3 / 6). -/
inductive Candidate : Type where
  | mk (kind : ProbeKind) (result : GoalResult)
      (nested : List (GoalSource × TraceNode))
      (wf_nested : List (Obligation × TraceNode))
end

/-- `InspectGoal::goal`. -/
def TraceNode.goal : TraceNode → GoalData
  | .mk g _ _ _ _ => g

/-- `InspectGoal::result` (normalized to drop the certainty's payload
distinctions the source keeps). -/
def TraceNode.result : TraceNode → GoalResult
  | .mk _ r _ _ _ => r

/-- `InspectGoal::candidates`. -/
def TraceNode.candidates : TraceNode → List Candidate
  | .mk _ _ cs _ _ => cs

/-- The recorded trace of the speculative `WellFormed(lhs)` probe. -/
def TraceNode.wf_lhs_probe : TraceNode → Option TraceNode
  | .mk _ _ _ l _ => l

/-- The recorded trace of the speculative `WellFormed(rhs)` probe. -/
def TraceNode.wf_rhs_probe : TraceNode → Option TraceNode
  | .mk _ _ _ _ r => r

/-- `InspectCandidate::kind`. -/
def Candidate.kind : Candidate → ProbeKind
  | .mk k _ _ _ => k

/-- `InspectCandidate::result`. -/
def Candidate.result : Candidate → GoalResult
  | .mk _ r _ _ => r

/-- `InspectCandidate::instantiate_nested_goals` (the span argument only
steers external instantiation and has no counterpart in the model). -/
def Candidate.nested : Candidate → List (GoalSource × TraceNode)
  | .mk _ _ n _ => n

/-- The recorded output of the well-formedness sub-walk's obligation
generator for this candidate. -/
def Candidate.wf_nested : Candidate → List (Obligation × TraceNode)
  | .mk _ _ _ w => w

/-- `ExpectedFound`. -/
structure ExpectedFound where
  expected : Ty
  found : Ty
deriving DecidableEq

/-- `SelectionError`, restricted to the variants this subsystem emits. -/
inductive SelectionError where
  | unimplemented
  | const_arg_has_wrong_type (ct : Const) (ct_ty : Ty) (expected_ty : Ty)
deriving DecidableEq

/-- `FulfillmentErrorCode`. The `project` payload
(`MismatchedProjectionTypes { err: TypeError::Mismatch }`) is constant and
carries no data; `subtype` carries the `ExpectedFound` pair and the
`TypeError::Sorts` payload built from it. -/
inductive FulfillmentErrorCode where
  | select (e : SelectionError)
  | project
  | subtype (expected_found : ExpectedFound) (sorts : ExpectedFound)
  | ambiguity (overflow : Option Bool)
deriving DecidableEq

/-- `FulfillmentError`: the refined leaf obligation, the error code, and the
unmodified root obligation. -/
structure FulfillmentError where
  obligation : Obligation
  code : FulfillmentErrorCode
  root_obligation : Obligation
deriving DecidableEq

/-- A clause of an impl's declared requirement list, as returned by
`tcx.predicates_of(..).instantiate_identity(..)`. Const-conditions are
converted into this type by `to_host_effect_clause`. -/
inductive TcxClause where
  | plain (n : Nat)
  | host_effect_form (trait_ref : TraitRefData) (constness : Constness)
deriving DecidableEq

/-- `TraitRef::to_host_effect_clause`: qualify a const-condition's trait
reference with the parent predicate's constness. -/
def to_host_effect_clause (trait_ref : TraitRefData) (constness : Constness) : TcxClause :=
  .host_effect_form trait_ref constness

/-- The declaration database (`TyCtxt`), reduced to the queries this
subsystem consumes (spec section 6). -/
structure Tcx where
  predicates_of : DefId → List (TcxClause × Span)
  const_conditions : DefId → List (TraitRefData × Span)
  do_not_recommend_impl : DefId → Bool
  fn_ptr_trait : Option DefId
  type_of : DefId → Args → Ty

/-- The inference context (`InferCtxt`), reduced to the operations this
subsystem consumes (spec section 6). `evaluate_root_goal` is the external
speculative re-solve; in the pure model the enclosing `probe` rollback is the
identity. -/
structure InferCtxt where
  tcx : Tcx
  resolve_vars_if_possible : Obligation → Obligation
  evaluate_root_goal : Obligation → GoalResult
  find_ty_from_env : Nat → ParamEnv → Ty

/-- The proof-tree visitor state (`struct BestObligation`): the current best
obligation and the immutable diagnosing-ambiguity-vs-failure flag. -/
structure BestObligation where
  obligation : Obligation
  consider_ambiguities : Bool
deriving DecidableEq

/-- The result filter repeated at the three nested-goal sites of the source
(`match (self.consider_ambiguities, nested_goal.result()) { (true, Ok(Maybe(Ambiguity))) | (false, Err(_)) => .., _ => .. }`):
a nested goal is the reason for its parent's status when diagnosing ambiguity
and it is ambiguous, or diagnosing failure and it failed. -/
def matches_result (consider_ambiguities : Bool) : GoalResult → Bool
  | .ok (.maybe .ambiguity) => consider_ambiguities
  | .err => !consider_ambiguities
  | _ => false

/-- Whether a nested goal's source is one of the four structural sources the
candidate filter inspects (`GoalSource::ImplWhereBound | AliasBoundConstCondition | InstantiateHigherRanked | AliasWellFormed`). -/
def structural_source : GoalSource → Bool
  | .impl_where_bound => true
  | .alias_bound_const_condition => true
  | .instantiate_higher_ranked => true
  | .alias_well_formed => true
  | .misc => false

/-- The failure-mode retention test of `BestObligation::non_trivial_candidates`:
the candidate has some nested goal with a structural source whose own result
matches the thing being diagnosed (the enclosing `infcx.probe` rollback is the
identity in the pure model). -/
def retained_for_failure (v : BestObligation) (c : Candidate) : Bool :=
  c.nested.any fun sn =>
    structural_source sn.1 && matches_result v.consider_ambiguities sn.2.result

/-- Whether a candidate is the rigid-alias fallback
(`matches!(candidate.kind(), inspect::ProbeKind::RigidAlias { .. })`). -/
def rigid_kind : ProbeKind → Bool
  | .rigid_alias => true
  | _ => false

/-- `BestObligation::non_trivial_candidates` (source lines 183-231): the
candidate filter. Ambiguity mode keeps the candidates that may hold; failure
mode first drops, when more than one candidate remains, the candidates
without a failing structurally-sourced nested goal, then prefers non-rigid
candidates. -/
def non_trivial_candidates (v : BestObligation) (goal : TraceNode) : List Candidate :=
  let candidates := goal.candidates
  match v.consider_ambiguities with
  | true => candidates.filter fun candidate => candidate.result.is_ok
  | false =>
    let candidates :=
      if candidates.length > 1 then
        candidates.filter (retained_for_failure v)
      else candidates
    if candidates.length > 1 then
      candidates.filter fun candidate => !(rigid_kind candidate.kind)
    else candidates

/-- `derive_cause` (source lines 444-478): attribution for trait predicates.
A user-impl candidate looks up the impl's declared requirement at the given
index and, when present, wraps the cause in an `ImplDerived` link carrying the
impl, the index and the requirement's span; out of range leaves the cause
unchanged; a built-in candidate wraps in a `BuiltinDerived` link; any other
candidate kind leaves the cause unchanged. -/
def derive_cause (tcx : Tcx) (candidate_kind : ProbeKind) (cause : ObligationCause)
    (idx : Nat) (parent_trait_pred : Binder TraitPredicate) : ObligationCause :=
  match candidate_kind with
  | .trait_candidate (.impl impl_def_id) _ =>
    match (tcx.predicates_of impl_def_id)[idx]? with
    | some (_, span) =>
      derived_cause cause parent_trait_pred fun p parent =>
        CauseCode.impl_derived p parent impl_def_id (some idx) span
    | none => cause
  | .trait_candidate .builtin_impl _ =>
    derived_cause cause parent_trait_pred CauseCode.builtin_derived
  | _ => cause

/-- `derive_host_cause` (source lines 480-527): attribution for host-effect
predicates. Like `derive_cause`, but the index ranges over the impl's
declared requirements followed by its const-conditions, the latter converted
with `to_host_effect_clause` under the parent predicate's constness. -/
def derive_host_cause (tcx : Tcx) (candidate_kind : ProbeKind) (cause : ObligationCause)
    (idx : Nat) (parent_host_pred : Binder HostEffectPredicate) : ObligationCause :=
  match candidate_kind with
  | .trait_candidate (.impl impl_def_id) _ =>
    match ((tcx.predicates_of impl_def_id) ++
        ((tcx.const_conditions impl_def_id).map fun ts =>
          (to_host_effect_clause ts.1 parent_host_pred.val.constness, ts.2)))[idx]? with
    | some (_, span) =>
      derived_host_cause cause parent_host_pred fun p parent =>
        CauseCode.impl_derived_host p parent impl_def_id span
    | none => cause
  | .trait_candidate .builtin_impl _ =>
    derived_host_cause cause parent_host_pred CauseCode.builtin_derived_host
  | _ => cause

/-- `ChildMode` (source lines 428-442). -/
inductive ChildMode where
  | trait (parent_trait_pred : Binder TraitPredicate)
  | host (parent_host_pred : Binder HostEffectPredicate)
  | pass_through
deriving DecidableEq

/-- `BestObligation::with_derived_obligation` (source lines 168-177): replace
the current obligation with the derived one, run the inner step, then restore
the previous obligation on return. -/
def with_derived_obligation (v : BestObligation) (derived_obligation : Obligation)
    (and_then : BestObligation → Obligation × BestObligation) :
    Obligation × BestObligation :=
  let old_obligation := v.obligation
  let res := and_then { v with obligation := derived_obligation }
  (res.1, { res.2 with obligation := old_obligation })

/-- One step of the nested-goal match of `BestObligation::visit_goal` (source
lines 344-387): the obligation to recurse into for a nested goal, if any
(`none` models `continue`), and the updated `impl_where_bound_count`. The
match arms are transcribed in source order. `make_obligation` keeps the
nested goal's environment and predicate and increments the recursion
depth. -/
def nested_obligation_and_count (tcx : Tcx) (child_mode : ChildMode)
    (candidate_kind : ProbeKind) (v : BestObligation) (count : Nat)
    (source : GoalSource) (node : TraceNode) : Option Obligation × Nat :=
  let make_obligation : ObligationCause → Obligation := fun cause =>
    { cause := cause
      param_env := node.goal.param_env
      predicate := node.goal.predicate
      recursion_depth := v.obligation.recursion_depth + 1 }
  match child_mode, source with
  | .trait _, .misc
  | .host _, .misc => (none, count)
  | .trait parent_trait_pred, .impl_where_bound =>
    (some (make_obligation
      (derive_cause tcx candidate_kind v.obligation.cause count parent_trait_pred)),
     count + 1)
  | .host parent_host_pred, .impl_where_bound
  | .host parent_host_pred, .alias_bound_const_condition =>
    (some (make_obligation
      (derive_host_cause tcx candidate_kind v.obligation.cause count parent_host_pred)),
     count + 1)
  | _, .instantiate_higher_ranked => (some v.obligation, count)
  | .pass_through, _
  | _, .alias_well_formed
  | _, .alias_bound_const_condition =>
    (some (make_obligation v.obligation.cause), count)

/-- The nested-goal loop of `BestObligation::visit_goal` (source lines
340-396), parameterized by the recursive visit (`nested_goal.visit_with(this)`,
modelled as a direct recursive visit: per spec section 5 this subsystem
imposes no additional depth bound). Skipped goals continue the walk; for the
first visited goal the derived obligation replaces the current one for the
duration of the recursive call via `with_derived_obligation`, and since
`visit_goal` yields `ControlFlow::Break` on every path, the `?` propagates
its result immediately (`some`), leaving later siblings unvisited. `none`
models the loop running to completion. -/
def walk_nested (tcx : Tcx)
    (visit : BestObligation → TraceNode → Obligation × BestObligation)
    (child_mode : ChildMode) (candidate_kind : ProbeKind) :
    BestObligation → Nat → List (GoalSource × TraceNode) →
    Option Obligation × BestObligation
  | v, _, [] => (none, v)
  | v, count, (source, node) :: rest =>
    match nested_obligation_and_count tcx child_mode candidate_kind v count source node with
    | (none, count') => walk_nested tcx visit child_mode candidate_kind v count' rest
    | (some obligation, count') =>
      if matches_result v.consider_ambiguities node.result then
        let r := with_derived_obligation v obligation fun this => visit this node
        (some r.1, r.2)
      else
        walk_nested tcx visit child_mode candidate_kind v count' rest

/-- The loop of `BestObligation::visit_well_formed_goal` (source lines
245-263) over the recorded output of the external well-formedness obligation
generator: the same result filter and replace/run/restore discipline as the
main loop, with the cause passed through unchanged, falling back to the
current obligation when nothing refines it. -/
def walk_wf_nested
    (visit : BestObligation → TraceNode → Obligation × BestObligation) :
    BestObligation → List (Obligation × TraceNode) → Obligation × BestObligation
  | v, [] => (v.obligation, v)
  | v, (obligation, nested_goal) :: rest =>
    if matches_result v.consider_ambiguities nested_goal.result then
      let r := with_derived_obligation v obligation fun this => visit this nested_goal
      (r.1, r.2)
    else
      walk_wf_nested visit v rest

/-- `BestObligation::visit_well_formed_goal` (source lines 236-264): the
external `wf::unnormalized_obligations` generator output and the per-goal
proof trees are the candidate's recorded `wf_nested` list. -/
def visit_well_formed_goal
    (visit : BestObligation → TraceNode → Obligation × BestObligation)
    (v : BestObligation) (candidate : Candidate) : Obligation × BestObligation :=
  walk_wf_nested visit v candidate.wf_nested

/-- The fn-ptr short-circuit of `BestObligation::visit_goal` (source lines
330-338): some nested goal is a failing bound on the language's function
pointer trait. -/
def has_failing_fn_ptr_bound (tcx : Tcx)
    (nested_goals : List (GoalSource × TraceNode)) : Bool :=
  nested_goals.any fun sn =>
    match tcx.fn_ptr_trait with
    | some fn_ptr_trait =>
      (match sn.2.goal.predicate.val with
       | .clause (.trait p) => p.def_id == fn_ptr_trait
       | _ => false)
      && (match sn.2.result with | .err => true | _ => false)
    | none => false

/-- `BestObligation::visit_goal` (source lines 274-425), by recursion on
`fuel`. The visitor yields `ControlFlow::Break` on every path, so the result
is the broken-out obligation paired with the final visitor state. `fuel`
bounds the recursion depth of the model only; it is consumed once per visited
goal, and the recursion is in reality bounded by the finite recorded trace
(spec section 5), so every theorem below quantifies over `fuel`. Exhausted
fuel conservatively returns the current obligation unchanged. -/
def visit_goal (tcx : Tcx) : Nat → BestObligation → TraceNode →
    Obligation × BestObligation
  | 0, v, _ => (v.obligation, v)
  | fuel + 1, v, goal =>
    match non_trivial_candidates v goal with
    | [candidate] =>
      if (match candidate.kind with
          | .trait_candidate (.impl impl_def_id) _ => tcx.do_not_recommend_impl impl_def_id
          | _ => false) then
        (v.obligation, v)
      else
        let pred_kind := goal.goal.predicate
        match pred_kind.val with
        | .clause (.well_formed _) =>
          visit_well_formed_goal (fun v' t' => visit_goal tcx fuel v' t') v candidate
        | pk =>
          let child_mode : ChildMode :=
            match pk with
            | .clause (.trait p) => .trait ⟨pred_kind.bound, p⟩
            | .clause (.host_effect p) => .host ⟨pred_kind.bound, p⟩
            | .normalizes_to n =>
              match n.alias_term.kind with
              | .projection_ty | .projection_const =>
                .trait ⟨pred_kind.bound, ⟨n.alias_term.trait_def_id, true⟩⟩
              | _ => .pass_through
            | _ => .pass_through
          let nested_goals := candidate.nested
          if has_failing_fn_ptr_bound tcx nested_goals then
            (v.obligation, v)
          else
            match walk_nested tcx (fun v' t' => visit_goal tcx fuel v' t')
                child_mode candidate.kind v 0 nested_goals with
            | (some res, v2) => (res, v2)
            | (none, v2) =>
              match pred_kind.no_bound_vars with
              | some (.alias_relate _ _ _) =>
                match goal.wf_lhs_probe with
                | some lhs_tree => visit_goal tcx fuel v2 lhs_tree
                | none =>
                  match goal.wf_rhs_probe with
                  | some rhs_tree => visit_goal tcx fuel v2 rhs_tree
                  | none => (v2.obligation, v2)
              | _ => (v2.obligation, v2)
    | _ => (v.obligation, v)

/-- `find_best_leaf_obligation` (source lines 138-160): resolve the root
obligation, then run the best-leaf visitor over its proof tree (`trace`, the
tree `visit_proof_tree` evaluates the goal to). The visitor breaks on every
path, so `break_value()` is always `Some` and the
`fudge_inference_if_ok(..).unwrap_or(obligation)` fallback to the unrefined
obligation is the identity here; inference-state fudging has no counterpart
in the pure model. -/
def find_best_leaf_obligation (infcx : InferCtxt) (trace : TraceNode)
    (obligation : Obligation) (consider_ambiguities : Bool) (fuel : Nat) : Obligation :=
  let obligation := infcx.resolve_vars_if_possible obligation
  (visit_goal infcx.tcx fuel
    { obligation := obligation, consider_ambiguities := consider_ambiguities } trace).1

/-- The definite-failure classifier of `fulfillment_error_for_no_solution`
(source lines 27-80), applied to the refined leaf obligation. `none` models
the fatal invariant violations (`span_bug!` for an unrecognized constant
shape, `bug!` for `ConstEquate`). -/
def classify_no_solution (infcx : InferCtxt) (obligation : Obligation) :
    Option FulfillmentErrorCode :=
  match obligation.predicate.val with
  | .clause .projection => some .project
  | .clause (.const_arg_has_type ct expected_ty) =>
    match (match ct.kind with
           | .unevaluated uv_def uv_args => some (infcx.tcx.type_of uv_def uv_args)
           | .param idx => some (infcx.find_ty_from_env idx obligation.param_env)
           | .value ty => some ty
           | .other_const => none) with
    | some ct_ty => some (.select (.const_arg_has_wrong_type ct ct_ty expected_ty))
    | none => none
  | .normalizes_to _ => some .project
  | .alias_relate _ _ _ => some .project
  | .subtype a b =>
    let expected_found := enter_forall_and_leak_universe ⟨obligation.predicate.bound, (a, b)⟩
    some (.subtype ⟨expected_found.1, expected_found.2⟩ ⟨expected_found.1, expected_found.2⟩)
  | .coerce a b =>
    let ab := enter_forall_and_leak_universe ⟨obligation.predicate.bound, (a, b)⟩
    some (.subtype ⟨ab.2, ab.1⟩ ⟨ab.2, ab.1⟩)
  | .clause _ => some (.select .unimplemented)
  | .dyn_compatible => some (.select .unimplemented)
  | .ambiguous => some (.select .unimplemented)
  | .const_equate => none

/-- `fulfillment_error_for_no_solution` (source lines 21-83): refine the root
obligation in failure mode over its recorded proof tree `trace`, classify the
leaf predicate's shape, and assemble the error record. -/
def fulfillment_error_for_no_solution (infcx : InferCtxt) (trace : TraceNode)
    (root_obligation : Obligation) (fuel : Nat) : Option FulfillmentError :=
  let obligation := find_best_leaf_obligation infcx trace root_obligation false fuel
  (classify_no_solution infcx obligation).map fun code =>
    { obligation := obligation, code := code, root_obligation := root_obligation }

/-- `fulfillment_error_for_stalled` (source lines 85-125): speculatively
re-evaluate the root goal (the enclosing `infcx.probe` rollback is the
identity in the pure model). Ambiguity refines in ambiguity mode with code
`Ambiguity { overflow: None }`; overflow reports the root obligation
unrefined with code `Ambiguity { overflow: Some(suggest_increasing_limit) }`;
success or definite failure is a fatal invariant violation (`bug!`),
modelled as `none`. -/
def fulfillment_error_for_stalled (infcx : InferCtxt) (trace : TraceNode)
    (root_obligation : Obligation) (fuel : Nat) : Option FulfillmentError :=
  match (match infcx.evaluate_root_goal root_obligation with
         | .ok (.maybe .ambiguity) =>
           some (FulfillmentErrorCode.ambiguity none, true)
         | .ok (.maybe (.overflow suggest_increasing_limit)) =>
           some (FulfillmentErrorCode.ambiguity (some suggest_increasing_limit), false)
         | .ok .yes => none
         | .err => none) with
  | none => none
  | some (code, refine_obligation) =>
    some
      { obligation :=
          if refine_obligation then
            find_best_leaf_obligation infcx trace root_obligation true fuel
          else
            root_obligation
        code := code
        root_obligation := root_obligation }

/-- `fulfillment_error_for_overflow` (source lines 127-136): always refine in
ambiguity mode and always emit `Ambiguity { overflow: Some(true) }`. -/
def fulfillment_error_for_overflow (infcx : InferCtxt) (trace : TraceNode)
    (root_obligation : Obligation) (fuel : Nat) : FulfillmentError :=
  { obligation := find_best_leaf_obligation infcx trace root_obligation true fuel
    code := .ambiguity (some true)
    root_obligation := root_obligation }

/-! Concrete fixtures used by witnesses and counterexamples. -/

/-- A concrete declaration database: every impl declares two ordinary
requirements (spans 10 and 20) and one const-applicability condition
(span 30). -/
def tcx_ex : Tcx :=
  { predicates_of := fun _ => [(.plain 0, 10), (.plain 1, 20)]
    const_conditions := fun _ => [(7, 30)]
    do_not_recommend_impl := fun _ => false
    fn_ptr_trait := none
    type_of := fun _ _ => .base 0 }

/-- A concrete inference context over `tcx_ex` with identity variable
resolution. -/
def infcx_ex : InferCtxt :=
  { tcx := tcx_ex
    resolve_vars_if_possible := id
    evaluate_root_goal := fun _ => .ok (.maybe .ambiguity)
    find_ty_from_env := fun _ _ => .base 0 }

/-- A concrete root cause. -/
def cause_ex : ObligationCause := { span := 1, body_id := 2, code := .misc }

/-- A concrete obligation at recursion depth 5. -/
def obl_ex : Obligation :=
  { cause := cause_ex
    param_env := 0
    predicate := ⟨0, .clause .other_clause⟩
    recursion_depth := 5 }

/-- A concrete visitor state in failure-diagnosing mode. -/
def v_ex : BestObligation := { obligation := obl_ex, consider_ambiguities := false }

/-- A concrete failed trace node with no candidates. -/
def node_err : TraceNode := .mk ⟨0, ⟨0, .clause .other_clause⟩⟩ .err [] none none

/-- A candidate that failed without any structurally-sourced failing nested
goal (a boring failure). -/
def cand_boring : Candidate := .mk .other_probe .err [] []

/-- A candidate with a failing `ImplWhereBound` nested goal. -/
def cand_where_fail : Candidate :=
  .mk (.trait_candidate (.impl 0) .err) .err [(.impl_where_bound, node_err)] []

/-- A trace node recording both candidates above. -/
def trace_c1 : TraceNode :=
  .mk ⟨0, ⟨0, .clause .other_clause⟩⟩ .err [cand_where_fail, cand_boring] none none

/-- A trace node with no candidates at all. -/
def trace_empty : TraceNode := .mk ⟨0, ⟨0, .clause .other_clause⟩⟩ .err [] none none

/-- Counterexample to C1 as stated: in failure mode with two recorded
candidates, the candidate with a failing `ImplWhereBound` nested goal is the
one the filter KEEPS, and the candidate without one is dropped — the claim
predicts the opposite retention. -/
theorem C1_counterexample :
    v_ex.consider_ambiguities = false
    ∧ 1 < trace_c1.candidates.length
    ∧ retained_for_failure v_ex cand_where_fail = true
    ∧ retained_for_failure v_ex cand_boring = false
    ∧ non_trivial_candidates v_ex trace_c1 = [cand_where_fail]
    ∧ ¬ non_trivial_candidates v_ex trace_c1 = [cand_boring] := by
  refine ⟨rfl, by decide, rfl, rfl, rfl, fun h => ?_⟩
  have h1 : non_trivial_candidates v_ex trace_c1 = [cand_where_fail] := rfl
  rw [h1] at h
  injection h with h3 _
  exact absurd (congrArg Candidate.kind h3) (by decide)

/-- C1 (amended): in failure-diagnosing mode, when more than one candidate is
recorded for a goal, the Candidate Filter keeps exactly the candidates whose
nested goals include one with source in {ImplWhereBound,
AliasBoundConstCondition, InstantiateHigherRanked, AliasWellFormed} whose own
result is a failure, dropping the others (the kept list is then subject only
to the subsequent rigid-alias preference); in particular every surviving
candidate has such a failing nested goal. -/
theorem C1_filter_keeps_failing_where_candidates
    (v : BestObligation) (t : TraceNode)
    (hmode : v.consider_ambiguities = false)
    (hlen : 1 < t.candidates.length) :
    (non_trivial_candidates v t =
      (let kept := t.candidates.filter (retained_for_failure v)
       if 1 < kept.length then
         kept.filter fun c => !(rigid_kind c.kind)
       else kept))
    ∧ ∀ c ∈ non_trivial_candidates v t, retained_for_failure v c = true := by
  have heq : non_trivial_candidates v t =
      (let kept := t.candidates.filter (retained_for_failure v)
       if 1 < kept.length then
         kept.filter fun c => !(rigid_kind c.kind)
       else kept) := by
    unfold non_trivial_candidates
    rw [hmode]
    simp only [gt_iff_lt, if_pos hlen]
  refine ⟨heq, fun c hc => ?_⟩
  rw [heq] at hc
  simp only at hc
  split at hc
  · exact (List.mem_filter.mp (List.mem_filter.mp hc).1).2
  · exact (List.mem_filter.mp hc).2

/-- Witness for the amended C1 at the concrete two-candidate trace. -/
theorem C1_filter_witness :
    (non_trivial_candidates v_ex trace_c1 =
      (let kept := trace_c1.candidates.filter (retained_for_failure v_ex)
       if 1 < kept.length then
         kept.filter fun c => !(rigid_kind c.kind)
       else kept))
    ∧ ∀ c ∈ non_trivial_candidates v_ex trace_c1, retained_for_failure v_ex c = true :=
  C1_filter_keeps_failing_where_candidates v_ex trace_c1 rfl (by decide)

/-- C2: for every visited goal node, if the candidate filter returns anything
other than exactly one candidate, the visitor stops and returns the current
obligation (and state) unchanged, without descending. -/
theorem C2_stop_without_single_candidate (tcx : Tcx) (fuel : Nat)
    (v : BestObligation) (t : TraceNode)
    (h : (non_trivial_candidates v t).length ≠ 1) :
    visit_goal tcx fuel v t = (v.obligation, v) := by
  cases fuel with
  | zero => rfl
  | succ fuel =>
    cases hc : non_trivial_candidates v t with
    | nil => simp [visit_goal, hc]
    | cons c cs =>
      cases cs with
      | nil => exact absurd (by rw [hc]; rfl) h
      | cons c' cs' => simp [visit_goal, hc]

/-- Witness for C2 at a trace with zero surviving candidates. -/
theorem C2_stop_witness :
    visit_goal tcx_ex 7 v_ex trace_empty = (v_ex.obligation, v_ex) :=
  C2_stop_without_single_candidate tcx_ex 7 v_ex trace_empty (by decide)

/-- C3: while walking a candidate's nested goals, the derived obligation
replaces the current one only for the duration of the recursive call
(`with_derived_obligation` restores the previous obligation on return), and
if the recursive call yields a refined leaf it is returned immediately: the
siblings after the first visited nested goal are never examined, so the
result is independent of them (first-match wins). -/
theorem C3_replace_restore_first_match (tcx : Tcx)
    (visit : BestObligation → TraceNode → Obligation × BestObligation)
    (v : BestObligation) (d ob : Obligation)
    (and_then : BestObligation → Obligation × BestObligation)
    (child_mode : ChildMode) (candidate_kind : ProbeKind) (count count' : Nat)
    (source : GoalSource) (node : TraceNode)
    (rest rest' : List (GoalSource × TraceNode))
    (hob : nested_obligation_and_count tcx child_mode candidate_kind v count source node
            = (some ob, count'))
    (hres : matches_result v.consider_ambiguities node.result = true) :
    (with_derived_obligation v d and_then).2.obligation = v.obligation
    ∧ walk_nested tcx visit child_mode candidate_kind v count ((source, node) :: rest)
        = (some (visit { v with obligation := ob } node).1,
           { (visit { v with obligation := ob } node).2 with obligation := v.obligation })
    ∧ walk_nested tcx visit child_mode candidate_kind v count ((source, node) :: rest)
        = walk_nested tcx visit child_mode candidate_kind v count ((source, node) :: rest') := by
  have hstep : ∀ tail,
      walk_nested tcx visit child_mode candidate_kind v count ((source, node) :: tail)
        = (some (visit { v with obligation := ob } node).1,
           { (visit { v with obligation := ob } node).2 with obligation := v.obligation }) := by
    intro tail
    simp [walk_nested, hob, hres, with_derived_obligation]
  exact ⟨rfl, hstep rest, (hstep rest).trans (hstep rest').symm⟩

/-- A concrete visit continuation that refines nothing. -/
def visit_id : BestObligation → TraceNode → Obligation × BestObligation :=
  fun v _ => (v.obligation, v)

/-- The obligation the pass-through arm derives from `node_err` under
`v_ex`. -/
def derived_ex : Obligation :=
  { cause := cause_ex
    param_env := 0
    predicate := ⟨0, .clause .other_clause⟩
    recursion_depth := 6 }

/-- A concrete unary inner step for `with_derived_obligation`. -/
def and_then_ex : BestObligation → Obligation × BestObligation :=
  fun v => (v.obligation, v)

/-- Witness for C3 at a concrete pass-through nested goal. -/
theorem C3_witness :
    (with_derived_obligation v_ex derived_ex and_then_ex).2.obligation = v_ex.obligation
    ∧ walk_nested tcx_ex visit_id .pass_through .other_probe v_ex 0
        ((GoalSource.misc, node_err) :: [])
        = (some (visit_id { v_ex with obligation := derived_ex } node_err).1,
           { (visit_id { v_ex with obligation := derived_ex } node_err).2 with
              obligation := v_ex.obligation })
    ∧ walk_nested tcx_ex visit_id .pass_through .other_probe v_ex 0
        ((GoalSource.misc, node_err) :: [])
        = walk_nested tcx_ex visit_id .pass_through .other_probe v_ex 0
            ((GoalSource.misc, node_err) :: [(GoalSource.misc, node_err)]) :=
  C3_replace_restore_first_match tcx_ex visit_id v_ex derived_ex derived_ex and_then_ex
    .pass_through .other_probe 0 0 .misc node_err [] [(.misc, node_err)] rfl rfl

/-- Counterexample to C4 as stated: for a nested goal with source
`InstantiateHigherRanked` the visitor recurses with the parent obligation
itself — its recursion depth (5) is not strictly greater than the parent's
(5) — and the result filter passes, so the goal is indeed recursed into. -/
theorem C4_counterexample :
    (nested_obligation_and_count tcx_ex .pass_through .other_probe v_ex 0
        .instantiate_higher_ranked node_err).1 = some v_ex.obligation
    ∧ matches_result v_ex.consider_ambiguities node_err.result = true
    ∧ (walk_nested tcx_ex visit_id .pass_through .other_probe v_ex 0
        [(GoalSource.instantiate_higher_ranked, node_err)]).1
        = some (visit_id v_ex node_err).1
    ∧ ¬ v_ex.obligation.recursion_depth > v_ex.obligation.recursion_depth := by
  refine ⟨rfl, rfl, ?_, by decide⟩
  simp [walk_nested, nested_obligation_and_count, with_derived_obligation,
    matches_result, node_err, visit_id, v_ex, TraceNode.result]

/-- C4 (amended): every obligation the nested-goal walk derives and may
recurse into either was built by `make_obligation` with recursion depth
exactly the parent's depth plus one (hence strictly greater), or arises from
the `InstantiateHigherRanked` arm, which passes the parent obligation through
unchanged, at equal depth. -/
theorem C4_derived_depth (tcx : Tcx) (child_mode : ChildMode)
    (candidate_kind : ProbeKind) (v : BestObligation) (count count' : Nat)
    (source : GoalSource) (node : TraceNode) (ob : Obligation)
    (h : nested_obligation_and_count tcx child_mode candidate_kind v count source node
          = (some ob, count')) :
    ob.recursion_depth = v.obligation.recursion_depth + 1
    ∨ (source = .instantiate_higher_ranked ∧ ob = v.obligation) := by
  cases child_mode <;> cases source <;>
    simp_all [nested_obligation_and_count] <;>
    simp [← h.1]

/-- Witness for the amended C4 at a concrete trait-mode where-bound goal. -/
theorem C4_derived_depth_witness :
    derived_ex.recursion_depth = v_ex.obligation.recursion_depth + 1
    ∨ (GoalSource.impl_where_bound = .instantiate_higher_ranked
        ∧ derived_ex = v_ex.obligation) :=
  C4_derived_depth tcx_ex (.trait ⟨0, ⟨0, true⟩⟩) .other_probe v_ex 0 1
    .impl_where_bound node_err derived_ex rfl

/-- C5: the stalled entry point's speculative re-evaluation must yield
ambiguity or overflow — success or definite failure is a fatal invariant
violation (modelled as `none`); ambiguity emits
`Ambiguity { overflow: None }` with the obligation refined in ambiguity mode,
while overflow emits `Ambiguity { overflow: Some(suggest_increasing_limit) }`
with the root obligation reported unmodified, no refinement attempted. -/
theorem C5_stalled_classification (infcx : InferCtxt) (trace : TraceNode)
    (root_obligation : Obligation) (fuel : Nat) :
    fulfillment_error_for_stalled infcx trace root_obligation fuel =
      match infcx.evaluate_root_goal root_obligation with
      | .ok (.maybe .ambiguity) =>
        some
          { obligation := find_best_leaf_obligation infcx trace root_obligation true fuel
            code := .ambiguity none
            root_obligation := root_obligation }
      | .ok (.maybe (.overflow suggest_increasing_limit)) =>
        some
          { obligation := root_obligation
            code := .ambiguity (some suggest_increasing_limit)
            root_obligation := root_obligation }
      | .ok .yes => none
      | .err => none := by
  unfold fulfillment_error_for_stalled
  rcases h : infcx.evaluate_root_goal root_obligation with c | _
  · rcases c with _ | mc
    · rfl
    · rcases mc with _ | s <;> rfl
  · rfl

/-- C6: whenever the best-leaf search fails to produce a refinement — the
visitor breaks out with its starting obligation — `find_best_leaf_obligation`
returns that (resolved) root obligation unchanged; the function is total and
has no error outcome. -/
theorem C6_graceful_degradation (infcx : InferCtxt) (trace : TraceNode)
    (obligation : Obligation) (consider_ambiguities : Bool) (fuel : Nat)
    (h : (visit_goal infcx.tcx fuel
            { obligation := infcx.resolve_vars_if_possible obligation
              consider_ambiguities := consider_ambiguities } trace).1
          = infcx.resolve_vars_if_possible obligation) :
    find_best_leaf_obligation infcx trace obligation consider_ambiguities fuel
      = infcx.resolve_vars_if_possible obligation := by
  simpa [find_best_leaf_obligation] using h

/-- Witness for C6 at a trace with no candidates, where the visitor cannot
refine. -/
theorem C6_graceful_degradation_witness :
    find_best_leaf_obligation infcx_ex trace_empty obl_ex false 3 = obl_ex :=
  C6_graceful_degradation infcx_ex trace_empty obl_ex false 3 rfl

/-- Whether a probe kind is a user-impl or built-in trait candidate (the two
kinds `derive_cause` attributes). -/
def impl_or_builtin_candidate : ProbeKind → Bool
  | .trait_candidate (.impl _) _ => true
  | .trait_candidate .builtin_impl _ => true
  | _ => false

/-- C7: for a trait predicate, a user-impl candidate looks up the impl's
declared requirement list at the positional index: in range, the cause is
wrapped in a derived-from-impl link recording the impl, the index and the
entry's span; out of range, the cause is returned unchanged; a built-in
candidate gets a generic derived-from-built-in link; any other candidate kind
leaves the cause unchanged. -/
theorem C7_derive_cause_cases (tcx : Tcx) (candidate_kind : ProbeKind)
    (cause : ObligationCause) (idx : Nat) (parent_trait_pred : Binder TraitPredicate)
    (impl_def_id : DefId) (r : GoalResult) (cl : TcxClause) (span : Span) :
    (candidate_kind = .trait_candidate (.impl impl_def_id) r →
      (tcx.predicates_of impl_def_id)[idx]? = some (cl, span) →
      derive_cause tcx candidate_kind cause idx parent_trait_pred =
        { cause with
            code := .impl_derived parent_trait_pred cause.code impl_def_id (some idx) span })
    ∧ (candidate_kind = .trait_candidate (.impl impl_def_id) r →
      (tcx.predicates_of impl_def_id)[idx]? = none →
      derive_cause tcx candidate_kind cause idx parent_trait_pred = cause)
    ∧ (candidate_kind = .trait_candidate .builtin_impl r →
      derive_cause tcx candidate_kind cause idx parent_trait_pred =
        { cause with code := .builtin_derived parent_trait_pred cause.code })
    ∧ (impl_or_builtin_candidate candidate_kind = false →
      derive_cause tcx candidate_kind cause idx parent_trait_pred = cause) := by
  refine ⟨fun hk hg => ?_, fun hk hg => ?_, fun hk => ?_, fun hk => ?_⟩
  · subst hk
    simp [derive_cause, hg, derived_cause]
  · subst hk
    simp [derive_cause, hg]
  · subst hk
    simp [derive_cause, derived_cause]
  · rcases candidate_kind with ⟨src, r'⟩ | _ | _
    · rcases src with _ | _ | _ | _ | _ <;>
        simp_all [impl_or_builtin_candidate, derive_cause]
    · simp [derive_cause]
    · simp [derive_cause]

/-- Witness for C7: all four cases at the concrete database `tcx_ex`, in
particular the second declared requirement (index 1) yielding the
declared span 20. -/
theorem C7_derive_cause_witness :
    (derive_cause tcx_ex (.trait_candidate (.impl 0) .err) cause_ex 1 ⟨0, ⟨0, true⟩⟩ =
      { cause_ex with
          code := .impl_derived ⟨0, ⟨0, true⟩⟩ cause_ex.code 0 (some 1) 20 })
    ∧ (derive_cause tcx_ex (.trait_candidate (.impl 0) .err) cause_ex 5 ⟨0, ⟨0, true⟩⟩
        = cause_ex)
    ∧ (derive_cause tcx_ex (.trait_candidate .builtin_impl .err) cause_ex 1 ⟨0, ⟨0, true⟩⟩ =
      { cause_ex with code := .builtin_derived ⟨0, ⟨0, true⟩⟩ cause_ex.code })
    ∧ (derive_cause tcx_ex .rigid_alias cause_ex 1 ⟨0, ⟨0, true⟩⟩ = cause_ex) :=
  ⟨(C7_derive_cause_cases tcx_ex (.trait_candidate (.impl 0) .err) cause_ex 1
      ⟨0, ⟨0, true⟩⟩ 0 .err (.plain 1) 20).1 rfl rfl,
   (C7_derive_cause_cases tcx_ex (.trait_candidate (.impl 0) .err) cause_ex 5
      ⟨0, ⟨0, true⟩⟩ 0 .err (.plain 1) 20).2.1 rfl rfl,
   (C7_derive_cause_cases tcx_ex (.trait_candidate .builtin_impl .err) cause_ex 1
      ⟨0, ⟨0, true⟩⟩ 0 .err (.plain 1) 20).2.2.1 rfl,
   (C7_derive_cause_cases tcx_ex .rigid_alias cause_ex 1
      ⟨0, ⟨0, true⟩⟩ 0 .err (.plain 1) 20).2.2.2 rfl⟩

/-- C8: for host-effect predicates the positional index ranges over the
concatenation of the impl's ordinary declared requirements followed by its
declared const-applicability conditions, the latter converted by
`to_host_effect_clause` under the parent predicate's constness, in that
order: an index below the requirement-list length selects the requirement's
entry, an index past it selects the const-condition at the offset index (the
consulted entry being the converted clause with that condition's span), and
an index past both leaves the cause unchanged. -/
theorem C8_host_index_over_concatenation (tcx : Tcx) (candidate_kind : ProbeKind)
    (cause : ObligationCause) (idx : Nat)
    (parent_host_pred : Binder HostEffectPredicate)
    (impl_def_id : DefId) (r : GoalResult) (cl : TcxClause) (tr : TraitRefData)
    (span : Span) :
    (candidate_kind = .trait_candidate (.impl impl_def_id) r →
      (tcx.predicates_of impl_def_id)[idx]? = some (cl, span) →
      derive_host_cause tcx candidate_kind cause idx parent_host_pred =
        { cause with
            code := .impl_derived_host parent_host_pred cause.code impl_def_id span })
    ∧ (candidate_kind = .trait_candidate (.impl impl_def_id) r →
      (tcx.predicates_of impl_def_id).length ≤ idx →
      (tcx.const_conditions impl_def_id)[idx - (tcx.predicates_of impl_def_id).length]?
          = some (tr, span) →
      ((tcx.predicates_of impl_def_id) ++
          ((tcx.const_conditions impl_def_id).map fun ts =>
            (to_host_effect_clause ts.1 parent_host_pred.val.constness, ts.2)))[idx]?
          = some (to_host_effect_clause tr parent_host_pred.val.constness, span)
      ∧ derive_host_cause tcx candidate_kind cause idx parent_host_pred =
        { cause with
            code := .impl_derived_host parent_host_pred cause.code impl_def_id span })
    ∧ (candidate_kind = .trait_candidate (.impl impl_def_id) r →
      (tcx.predicates_of impl_def_id).length ≤ idx →
      (tcx.const_conditions impl_def_id)[idx - (tcx.predicates_of impl_def_id).length]?
          = none →
      derive_host_cause tcx candidate_kind cause idx parent_host_pred = cause) := by
  refine ⟨fun hk hg => ?_, fun hk hle hg => ?_, fun hk hle hg => ?_⟩
  · subst hk
    have hlt : idx < (tcx.predicates_of impl_def_id).length :=
      (List.getElem?_eq_some.mp hg).1
    simp [derive_host_cause, List.getElem?_append_left hlt, hg, derived_host_cause]
  · subst hk
    have key : ((tcx.predicates_of impl_def_id) ++
        ((tcx.const_conditions impl_def_id).map fun ts =>
          (to_host_effect_clause ts.1 parent_host_pred.val.constness, ts.2)))[idx]?
        = some (to_host_effect_clause tr parent_host_pred.val.constness, span) := by
      rw [List.getElem?_append_right hle, List.getElem?_map, hg]
      rfl
    exact ⟨key, by simp [derive_host_cause, key, derived_host_cause]⟩
  · subst hk
    have key : ((tcx.predicates_of impl_def_id) ++
        ((tcx.const_conditions impl_def_id).map fun ts =>
          (to_host_effect_clause ts.1 parent_host_pred.val.constness, ts.2)))[idx]?
        = none := by
      rw [List.getElem?_append_right hle, List.getElem?_map, hg]
      rfl
    simp [derive_host_cause, key]

/-- A concrete parent host predicate requiring constness. -/
def host_pred_ex : Binder HostEffectPredicate := ⟨0, ⟨0, .const⟩⟩

/-- Witness for C8: at `tcx_ex` (two declared requirements, one
const-condition), index 1 hits the second requirement (span 20), index 2
hits the converted const-condition (span 30), index 3 is past both and
leaves the cause unchanged. -/
theorem C8_host_index_witness :
    (derive_host_cause tcx_ex (.trait_candidate (.impl 0) .err) cause_ex 1 host_pred_ex =
      { cause_ex with code := .impl_derived_host host_pred_ex cause_ex.code 0 20 })
    ∧ (((tcx_ex.predicates_of 0) ++
          ((tcx_ex.const_conditions 0).map fun ts =>
            (to_host_effect_clause ts.1 host_pred_ex.val.constness, ts.2)))[2]?
          = some (to_host_effect_clause 7 host_pred_ex.val.constness, 30)
       ∧ derive_host_cause tcx_ex (.trait_candidate (.impl 0) .err) cause_ex 2 host_pred_ex =
          { cause_ex with code := .impl_derived_host host_pred_ex cause_ex.code 0 30 })
    ∧ (derive_host_cause tcx_ex (.trait_candidate (.impl 0) .err) cause_ex 3 host_pred_ex
        = cause_ex) :=
  ⟨(C8_host_index_over_concatenation tcx_ex (.trait_candidate (.impl 0) .err) cause_ex 1
      host_pred_ex 0 .err (.plain 1) 7 20).1 rfl rfl,
   (C8_host_index_over_concatenation tcx_ex (.trait_candidate (.impl 0) .err) cause_ex 2
      host_pred_ex 0 .err (.plain 1) 7 30).2.1 rfl (by decide) rfl,
   (C8_host_index_over_concatenation tcx_ex (.trait_candidate (.impl 0) .err) cause_ex 3
      host_pred_ex 0 .err (.plain 1) 7 30).2.2 rfl (by decide) rfl⟩

/-- C9: when the refined leaf predicate is `Subtype(a, b)` the definite-failure
classifier emits a Subtype error with expected `a` and found `b`; when it is
`Coerce(a, b)` the direction is reversed (expected `b`, found `a`); in both
cases the types have the enclosing quantifier instantiated. Writing the leaf
as `Subtype(a, b)` or `Coerce(b, a)` makes the two conclusions coincide. -/
theorem C9_subtype_coerce_direction (infcx : InferCtxt) (trace : TraceNode)
    (root_obligation : Obligation) (fuel : Nat) (a b : Ty)
    (h : (find_best_leaf_obligation infcx trace root_obligation false fuel).predicate.val
          = .subtype a b
       ∨ (find_best_leaf_obligation infcx trace root_obligation false fuel).predicate.val
          = .coerce b a) :
    fulfillment_error_for_no_solution infcx trace root_obligation fuel =
      some
        { obligation := find_best_leaf_obligation infcx trace root_obligation false fuel
          code := .subtype
            ⟨inst_ty
              (find_best_leaf_obligation infcx trace root_obligation false fuel).predicate.bound a,
             inst_ty
              (find_best_leaf_obligation infcx trace root_obligation false fuel).predicate.bound b⟩
            ⟨inst_ty
              (find_best_leaf_obligation infcx trace root_obligation false fuel).predicate.bound a,
             inst_ty
              (find_best_leaf_obligation infcx trace root_obligation false fuel).predicate.bound b⟩
          root_obligation := root_obligation } := by
  simp only [fulfillment_error_for_no_solution, classify_no_solution]
  rcases h with h | h <;> rw [h] <;>
    simp [enter_forall_and_leak_universe]

/-- A concrete root obligation with a quantifier-free subtype predicate. -/
def root_subtype_ex : Obligation :=
  { cause := cause_ex
    param_env := 0
    predicate := ⟨0, .subtype (.base 1) (.base 2)⟩
    recursion_depth := 0 }

/-- Witness for C9 at a concrete unrefinable subtype root. -/
theorem C9_subtype_witness :
    fulfillment_error_for_no_solution infcx_ex trace_empty root_subtype_ex 3 =
      some
        { obligation := find_best_leaf_obligation infcx_ex trace_empty root_subtype_ex false 3
          code := .subtype
            ⟨inst_ty
              (find_best_leaf_obligation infcx_ex trace_empty root_subtype_ex false 3).predicate.bound
              (.base 1),
             inst_ty
              (find_best_leaf_obligation infcx_ex trace_empty root_subtype_ex false 3).predicate.bound
              (.base 2)⟩
            ⟨inst_ty
              (find_best_leaf_obligation infcx_ex trace_empty root_subtype_ex false 3).predicate.bound
              (.base 1),
             inst_ty
              (find_best_leaf_obligation infcx_ex trace_empty root_subtype_ex false 3).predicate.bound
              (.base 2)⟩
          root_obligation := root_subtype_ex } :=
  C9_subtype_coerce_direction infcx_ex trace_empty root_subtype_ex 3 (.base 1) (.base 2)
    (Or.inl rfl)

/-- C10: for all three entry points, the `root_obligation` field of the
returned record is exactly the root obligation passed in, however far the
best-leaf search refined the `obligation` field. -/
theorem C10_root_obligation_preserved (infcx : InferCtxt) (trace : TraceNode)
    (root_obligation : Obligation) (fuel : Nat) :
    ((fulfillment_error_for_no_solution infcx trace root_obligation fuel).map
        FulfillmentError.root_obligation
      = (fulfillment_error_for_no_solution infcx trace root_obligation fuel).map
          fun _ => root_obligation)
    ∧ ((fulfillment_error_for_stalled infcx trace root_obligation fuel).map
        FulfillmentError.root_obligation
      = (fulfillment_error_for_stalled infcx trace root_obligation fuel).map
          fun _ => root_obligation)
    ∧ (fulfillment_error_for_overflow infcx trace root_obligation fuel).root_obligation
        = root_obligation := by
  refine ⟨?_, ?_, rfl⟩
  · unfold fulfillment_error_for_no_solution
    cases h : classify_no_solution infcx
        (find_best_leaf_obligation infcx trace root_obligation false fuel) <;>
      simp [h]
  · unfold fulfillment_error_for_stalled
    rcases infcx.evaluate_root_goal root_obligation with c | _
    · rcases c with _ | mc
      · rfl
      · rcases mc with _ | s <;> rfl
    · rfl
